import Mathlib

/-!
Shallow embedding of `src/bin/weectl/parse_station.py`: the `station`
subcommand of the `weectl` CLI.  The file registers four argparse actions
(`create`, `reconfigure`, `upgrade`, `upgrade-skins`), adds the common
StationSettings options to the first two via `_add_common_args`, and defines
the two handlers `create_station` and `reconfigure_station` that forward the
parsed namespace to the configuration engine
(`weecfg.station_config.create_station` / `reconfigure_station`) inside a
`try/except weewx.ViolatedPrecondition` block.
-/

set_option maxHeartbeats 1000000

deriving instance DecidableEq for Except

namespace WeectlStation

/-- Python truthiness of a string: `bool(s)` is `True` iff `s` is non-empty.
This is the conversion argparse applies to the value of an option declared
with `type=bool`, as `--no-prompt` is in `_add_common_args`. -/
def pythonBool (s : String) : Bool := !s.isEmpty

/-- The four actions registered by `add_subparser` on the `station` command. -/
inductive Action where
  | create
  | reconfigure
  | upgrade
  | upgradeSkins
deriving DecidableEq

/-- The destinations (argparse `dest`) of the options added by `add_subparser`
and `_add_common_args`.  `--units` stores to `unit_system` (explicit
`dest='unit_system'`); every other option stores to its own long name with
`-` replaced by `_`. -/
inductive Dest where
  | config
  | driver
  | location
  | altitude
  | latitude
  | longitude
  | register
  | stationUrl
  | unitSystem
  | skinRoot
  | sqliteRoot
  | htmlRoot
  | noPrompt
deriving DecidableEq

/-- The argparse namespace produced by parsing a `station create` or
`station reconfigure` command line: one attribute per option destination.
No `add_argument` call in the source passes `default=`, so every attribute
defaults to `None`; `no_prompt` holds a `bool` because of `type=bool`. -/
structure Namespace where
  config : Option String := none
  driver : Option String := none
  location : Option String := none
  altitude : Option String := none
  latitude : Option String := none
  longitude : Option String := none
  register : Option String := none
  station_url : Option String := none
  unit_system : Option String := none
  skin_root : Option String := none
  sqlite_root : Option String := none
  html_root : Option String := none
  no_prompt : Option Bool := none
deriving DecidableEq

/-- `choices=['us', 'metricwx', 'metric']` on `--units`. -/
def unitsChoices : List String := ["us", "metricwx", "metric"]

/-- `choices=['y', 'n']` on `--register`. -/
def registerChoices : List String := ["y", "n"]

/-- The long option string that stores to a given destination. -/
def flagOf : Dest → String
  | .config => "--config"
  | .driver => "--driver"
  | .location => "--location"
  | .altitude => "--altitude"
  | .latitude => "--latitude"
  | .longitude => "--longitude"
  | .register => "--register"
  | .stationUrl => "--station-url"
  | .unitSystem => "--units"
  | .skinRoot => "--skin-root"
  | .sqliteRoot => "--sqlite-root"
  | .htmlRoot => "--html-root"
  | .noPrompt => "--no-prompt"

/-- The destinations of the options the `create` and `reconfigure`
subcommands declare, in `add_argument` order: `--config` first, then the
eleven options of `_add_common_args`. -/
def commonDests : List Dest :=
  [.config, .driver, .location, .altitude, .latitude, .longitude, .register,
   .stationUrl, .unitSystem, .skinRoot, .sqliteRoot, .htmlRoot, .noPrompt]

/-- The option destinations each action's subcommand declares: `create` and
`reconfigure` get `--config` plus the eleven options of `_add_common_args`;
the `upgrade` and `upgrade-skins` subcommands are registered by
`add_subparser` with no options of their own at all. -/
def actionDests : Action → List Dest
  | .create => commonDests
  | .reconfigure => commonDests
  | .upgrade => []
  | .upgradeSkins => []

/-- The destination an option string stores to under a given action's
subcommand, or `none` when the subcommand does not recognise the option. -/
def destOf (a : Action) (flag : String) : Option Dest :=
  (actionDests a).find? fun d => flagOf d == flag

/-- The `choices=` restriction attached to each destination, when any:
only `--register` and `--units` carry one. -/
def choicesOf : Dest → Option (List String)
  | .register => some registerChoices
  | .unitSystem => some unitsChoices
  | _ => none

/-- argparse's choices check: a supplied value must be a member of the
declared choices list when one exists. -/
def checkChoices (d : Dest) (s : String) : Bool :=
  match choicesOf d with
  | some cs => cs.contains s
  | none => true

/-- Store a supplied option value into its namespace attribute.  Every option
stores the raw string, except `--no-prompt`, whose `type=bool` converts the
string with Python `bool()` first. -/
def setDest (ns : Namespace) (d : Dest) (s : String) : Namespace :=
  match d with
  | .config => { ns with config := some s }
  | .driver => { ns with driver := some s }
  | .location => { ns with location := some s }
  | .altitude => { ns with altitude := some s }
  | .latitude => { ns with latitude := some s }
  | .longitude => { ns with longitude := some s }
  | .register => { ns with register := some s }
  | .stationUrl => { ns with station_url := some s }
  | .unitSystem => { ns with unit_system := some s }
  | .skinRoot => { ns with skin_root := some s }
  | .sqliteRoot => { ns with sqlite_root := some s }
  | .htmlRoot => { ns with html_root := some s }
  | .noPrompt => { ns with no_prompt := some (pythonBool s) }

/-- Process one `--flag value` (or `--flag=value`) token against an action's
subcommand, the way argparse's store action does: an option string the
subcommand never declared is an error; a declared option with no value is an
error (every option here takes exactly one argument); a value failing the
`choices=` restriction is an error; otherwise the value is stored. -/
def applyToken (a : Action) (ns : Namespace) (flag : String) (v : Option String) :
    Except String Namespace :=
  match destOf a flag with
  | none => .error ("unrecognized arguments: " ++ flag)
  | some d =>
    match v with
    | none => .error ("argument " ++ flag ++ ": expected one argument")
    | some s =>
      if checkChoices d s then .ok (setDest ns d s)
      else .error ("argument " ++ flag ++ ": invalid choice: " ++ s)

/-- Parse a list of option tokens for one action, left to right, stopping at
the first argparse error (argparse exits with a usage message there, before
any handler can run). -/
def parseTokens (a : Action) : Namespace → List (String × Option String) →
    Except String Namespace
  | ns, [] => .ok ns
  | ns, t :: rest =>
    match applyToken a ns t.1 t.2 with
    | .error m => .error m
    | .ok ns1 => parseTokens a ns1 rest

/-- A Python value as it appears in the keyword arguments of the engine call:
a string, a bool, or `None`. -/
inductive PyVal where
  | str (s : String)
  | pybool (b : Bool)
  | pyNone
deriving DecidableEq, BEq

/-- View an optional string attribute as the Python value passed on. -/
def toPy : Option String → PyVal
  | some s => .str s
  | none => .pyNone

/-- View an optional bool attribute as the Python value passed on. -/
def toPyB : Option Bool → PyVal
  | some b => .pybool b
  | none => .pyNone

/-- Read a namespace attribute by destination, as a Python value. -/
def getDest (ns : Namespace) : Dest → PyVal
  | .config => toPy ns.config
  | .driver => toPy ns.driver
  | .location => toPy ns.location
  | .altitude => toPy ns.altitude
  | .latitude => toPy ns.latitude
  | .longitude => toPy ns.longitude
  | .register => toPy ns.register
  | .stationUrl => toPy ns.station_url
  | .unitSystem => toPy ns.unit_system
  | .skinRoot => toPy ns.skin_root
  | .sqliteRoot => toPy ns.sqlite_root
  | .htmlRoot => toPy ns.html_root
  | .noPrompt => toPyB ns.no_prompt

/-- The keyword name under which each destination would be forwarded to the
engine entry point (`namespace.config` is forwarded as `config_path`). -/
def kwargName : Dest → String
  | .config => "config_path"
  | .driver => "driver"
  | .location => "location"
  | .altitude => "altitude"
  | .latitude => "latitude"
  | .longitude => "longitude"
  | .register => "register"
  | .stationUrl => "station_url"
  | .unitSystem => "unit_system"
  | .skinRoot => "skin_root"
  | .sqliteRoot => "sqlite_root"
  | .htmlRoot => "html_root"
  | .noPrompt => "no_prompt"

/-- The keyword arguments `create_station` passes to
`weecfg.station_config.create_station`, in source order.  The parsed
`--station-url` value (`namespace.station_url`) does not appear among them. -/
def createStationCall (ns : Namespace) : List (String × PyVal) :=
  [("config_path", toPy ns.config),
   ("driver", toPy ns.driver),
   ("location", toPy ns.location),
   ("altitude", toPy ns.altitude),
   ("latitude", toPy ns.latitude),
   ("longitude", toPy ns.longitude),
   ("register", toPy ns.register),
   ("unit_system", toPy ns.unit_system),
   ("skin_root", toPy ns.skin_root),
   ("sqlite_root", toPy ns.sqlite_root),
   ("html_root", toPy ns.html_root),
   ("no_prompt", toPyB ns.no_prompt)]

/-- The keyword arguments `reconfigure_station` passes to
`weecfg.station_config.reconfigure_station`, in source order; the same twelve
as `create_station`, and again no `station_url`. -/
def reconfigureStationCall (ns : Namespace) : List (String × PyVal) :=
  [("config_path", toPy ns.config),
   ("driver", toPy ns.driver),
   ("location", toPy ns.location),
   ("altitude", toPy ns.altitude),
   ("latitude", toPy ns.latitude),
   ("longitude", toPy ns.longitude),
   ("register", toPy ns.register),
   ("unit_system", toPy ns.unit_system),
   ("skin_root", toPy ns.skin_root),
   ("sqlite_root", toPy ns.sqlite_root),
   ("html_root", toPy ns.html_root),
   ("no_prompt", toPyB ns.no_prompt)]

/-- Modelled from the spec: the configuration-engine entry points
(`weecfg.station_config.create_station` / `reconfigure_station`) and the
`weewx` exception classes are imported modules, not part of the source under
review.  Per the spec's error taxonomy an engine call either returns normally
or raises a typed error; `weewx.ViolatedPrecondition` is the taxonomy's
`PreconditionError`, and the other taxonomy types (`ValidationError`,
`UpgradeStepError`, `WriteError`) are distinct exception types, carried here
by class name together with their human-readable message. -/
inductive EngineOutcome where
  | normal
  | violatedPrecondition (msg : String)
  | otherError (excName : String) (msg : String)
deriving DecidableEq

/-- How a handler invocation ends: a normal return, a `sys.exit` with an exit
status and a message printed to stderr, or an exception escaping the handler
and propagating to the caller. -/
inductive HandlerResult where
  | returned
  | exited (code : Nat) (msg : String)
  | raised (excName : String) (msg : String)
deriving DecidableEq

/-- `create_station(namespace)`: calls the engine inside
`try ... except weewx.ViolatedPrecondition as e: sys.exit(e)`.
`sys.exit(e)` with an exception argument prints `str(e)` to stderr and exits
with status 1; an exception of any other class does not match the single
`except` clause and propagates out of the handler. -/
def runCreateStation (o : EngineOutcome) : HandlerResult :=
  match o with
  | .normal => .returned
  | .violatedPrecondition m => .exited 1 m
  | .otherError n m => .raised n m

/-- `reconfigure_station(namespace)`: identical `try/except` shape around the
engine's `reconfigure_station` call. -/
def runReconfigureStation (o : EngineOutcome) : HandlerResult :=
  match o with
  | .normal => .returned
  | .violatedPrecondition m => .exited 1 m
  | .otherError n m => .raised n m

/-- What the handler itself writes: nothing on a normal return, the single
`sys.exit` message otherwise; when an exception propagates the handler prints
nothing of its own. -/
def handlerOutput : HandlerResult → List String
  | .returned => []
  | .exited _ m => [m]
  | .raised _ _ => []

/-- The two handler functions this file defines and binds via
`set_defaults(func=...)`. -/
inductive HandlerId where
  | createStationH
  | reconfigureStationH
deriving DecidableEq

/-- The handler bound to each action by `add_subparser`:
`set_defaults(func=create_station)` on the `create` subcommand and
`set_defaults(func=reconfigure_station)` on `reconfigure`; no `set_defaults`
call is made for `upgrade` or `upgrade-skins`, so those namespaces carry no
handler. -/
def boundHandler : Action → Option HandlerId
  | .create => some .createStationH
  | .reconfigure => some .reconfigureStationH
  | .upgrade => none
  | .upgradeSkins => none

/-- The engine call a handler makes, as a function of the namespace. -/
def engineCallOf : HandlerId → Namespace → List (String × PyVal)
  | .createStationH => createStationCall
  | .reconfigureStationH => reconfigureStationCall

/-- How a whole `weectl station <action> ...` invocation ends: an argparse
usage error before any handler runs, a handler outcome, or a parsed namespace
with no handler bound to it. -/
inductive InvocationResult where
  | usageError (msg : String)
  | handled (r : HandlerResult)
  | noHandler (ns : Namespace)
deriving DecidableEq

/-- Modelled from the spec: the surrounding `weectl` driver (not among the
source files under review) parses the command line and then invokes the
handler the subcommand bound into the namespace.  The engine's behaviour is
abstracted as the outcome `eng` its call would have.  argparse errors abort
before any handler, and hence before any engine call, can run. -/
def runStationCommand (a : Action) (toks : List (String × Option String))
    (eng : EngineOutcome) : InvocationResult :=
  match parseTokens a {} toks with
  | .error m => .usageError m
  | .ok ns =>
    match boundHandler a with
    | some .createStationH => .handled (runCreateStation eng)
    | some .reconfigureStationH => .handled (runReconfigureStation eng)
    | none => .noHandler ns

/-- The destinations `create_station` and `reconfigure_station` forward to
the engine: every destination except `station_url` (twelve of the
thirteen). -/
def forwardedDests : List Dest :=
  [.config, .driver, .location, .altitude, .latitude, .longitude, .register,
   .unitSystem, .skinRoot, .sqliteRoot, .htmlRoot, .noPrompt]

/-- The StationSettings destinations named by the do-not-override claim:
every forwarded destination except `config`. -/
def settingsDests : List Dest :=
  [.driver, .location, .altitude, .latitude, .longitude, .register,
   .unitSystem, .skinRoot, .sqliteRoot, .htmlRoot, .noPrompt]

/-- The free-string options: those carrying no `choices=` restriction and no
type conversion, and whose value is forwarded to the engine. -/
def verbatimDests : List Dest :=
  [.driver, .location, .altitude, .latitude, .longitude, .skinRoot,
   .sqliteRoot, .htmlRoot]

/-! ### Helper lemmas -/

/-- A recognised option string determines its destination: when `destOf`
answers `some d`, the flag is exactly `flagOf d`. -/
theorem destOf_eq_flagOf {a : Action} {f : String} {d : Dest}
    (h : destOf a f = some d) : f = flagOf d := by
  unfold destOf at h
  have hp := List.find?_some h
  exact (eq_of_beq hp).symm

/-- Storing into one destination leaves every other destination's attribute
unchanged. -/
theorem getDest_setDest_ne {d' d : Dest} (ns : Namespace) (s : String)
    (h : d' ≠ d) : getDest (setDest ns d' s) d = getDest ns d := by
  cases d' <;> cases d <;> simp_all [setDest, getDest]

/-- Unpack a successful `applyToken`: the flag was recognised, a value was
present, it passed the choices check, and the result stores it. -/
theorem applyToken_ok {a : Action} {ns ns1 : Namespace} {flag : String}
    {v : Option String} (h : applyToken a ns flag v = .ok ns1) :
    ∃ d s, destOf a flag = some d ∧ v = some s ∧ checkChoices d s = true ∧
      ns1 = setDest ns d s := by
  cases v with
  | none =>
    unfold applyToken at h
    split at h
    · exact Except.noConfusion h
    next d hd =>
      split at h
      · exact Except.noConfusion h
      next s2 hv => exact Option.noConfusion hv
  | some s =>
    unfold applyToken at h
    split at h
    · exact Except.noConfusion h
    next d hd =>
      split at h
      next hv => exact Option.noConfusion hv
      next s2 hv =>
        split at h
        next hc =>
          injection h with h2
          exact ⟨d, s2, hd, hv, hc, h2.symm⟩
        next => exact Except.noConfusion h

/-- A successful token application for a flag other than `flagOf d` leaves
destination `d` unchanged. -/
theorem applyToken_preserves {a : Action} {ns ns1 : Namespace} {flag : String}
    {v : Option String} {d : Dest} (h : applyToken a ns flag v = .ok ns1)
    (hf : flag ≠ flagOf d) : getDest ns1 d = getDest ns d := by
  obtain ⟨d0, s, hd0, _, _, rfl⟩ := applyToken_ok h
  refine getDest_setDest_ne ns s fun hdd => ?_
  exact hf (hdd ▸ destOf_eq_flagOf hd0)

/-- A successful parse of a token list that never mentions `flagOf d` leaves
destination `d` at its starting value. -/
theorem parseTokens_preserves {a : Action} {d : Dest}
    (toks : List (String × Option String)) (ns ns' : Namespace)
    (h : parseTokens a ns toks = .ok ns')
    (hn : ∀ t ∈ toks, t.1 ≠ flagOf d) :
    getDest ns' d = getDest ns d := by
  induction toks generalizing ns with
  | nil =>
    simp only [parseTokens] at h
    injection h with h
    rw [h]
  | cons t rest ih =>
    simp only [parseTokens] at h
    cases happ : applyToken a ns t.1 t.2 <;> rw [happ] at h
    · exact absurd h (by simp)
    · rw [ih _ h fun u hu => hn u (List.mem_cons_of_mem t hu)]
      exact applyToken_preserves happ (hn t (List.mem_cons_self t rest))

/-- For every forwarded destination, the engine call carries exactly the
namespace attribute under the destination's keyword name, for both
handlers. -/
theorem call_lookup_eq {d : Dest} (hd : d ∈ forwardedDests) (ns : Namespace) :
    (createStationCall ns).lookup (kwargName d) = some (getDest ns d) ∧
    (reconfigureStationCall ns).lookup (kwargName d) = some (getDest ns d) := by
  simp only [forwardedDests, List.mem_cons, List.not_mem_nil, or_false] at hd
  rcases hd with rfl | rfl | rfl | rfl | rfl | rfl | rfl | rfl | rfl | rfl |
    rfl | rfl <;> exact ⟨rfl, rfl⟩

/-- A token that fails on every namespace poisons the whole parse: no result
namespace is ever produced from a token list containing it. -/
theorem parseTokens_bad {a : Action} {t : String × Option String}
    (hbad : ∀ ns : Namespace, ∃ m, applyToken a ns t.1 t.2 = .error m) :
    ∀ (toks : List (String × Option String)) (ns0 ns : Namespace),
      t ∈ toks → parseTokens a ns0 toks ≠ .ok ns := by
  intro toks
  induction toks with
  | nil => intro ns0 ns h; cases h
  | cons hd tl ih =>
    intro ns0 ns hmem hok
    simp only [parseTokens] at hok
    cases happ : applyToken a ns0 hd.1 hd.2 <;> rw [happ] at hok
    · exact absurd hok (by simp)
    · rcases List.mem_cons.mp hmem with rfl | hmem'
      · obtain ⟨m, hm⟩ := hbad ns0
        rw [hm] at happ
        cases happ
      · exact ih _ _ hmem' hok

/-! ### Claim theorems -/

/-- C1: the claim states that every StationSettings field accepted on the
command line, including `--station-url`, is forwarded to the configuration
engine entry point.  The code violates it: `--station-url` parses fine into
`namespace.station_url` (even alongside `--register=y`), but neither
`create_station` nor `reconfigure_station` passes a `station_url` keyword to
`weecfg.station_config.create_station` / `reconfigure_station` — the keyword
is absent from both calls for every namespace. -/
theorem station_url_dropped_from_engine_call :
    parseTokens Action.create {}
        [("--register", some "y"),
         ("--station-url", some "https://example.com/weather")] =
      Except.ok { register := some "y",
                  station_url := some "https://example.com/weather" } ∧
    (∀ ns : Namespace,
      ((createStationCall ns).map Prod.fst).contains "station_url" = false ∧
      ((reconfigureStationCall ns).map Prod.fst).contains "station_url" = false) :=
  ⟨by decide, fun _ => ⟨rfl, rfl⟩⟩

/-- C3: the claim states that parsing `upgrade` (and `upgrade-skins`)
produces a namespace bound to a Schema-Upgrader handler, analogously to how
`create`/`reconfigure` are bound to `create_station`/`reconfigure_station`.
The code violates it: `add_subparser` calls `set_defaults(func=...)` for
`create` and `reconfigure` only; the `upgrade` and `upgrade-skins`
subcommands bind no handler at all, so their parsed namespace carries no
`func` and a `station upgrade` invocation reaches no handler. -/
theorem upgrade_actions_bind_no_handler :
    boundHandler Action.upgrade = none ∧
    boundHandler Action.upgradeSkins = none ∧
    boundHandler Action.create = some HandlerId.createStationH ∧
    boundHandler Action.reconfigure = some HandlerId.reconfigureStationH ∧
    runStationCommand Action.upgrade [] EngineOutcome.normal =
      InvocationResult.noHandler {} ∧
    runStationCommand Action.upgradeSkins [] EngineOutcome.normal =
      InvocationResult.noHandler {} := by decide

/-- C4: the claim states that all four actions accept `--config=CONFIG-PATH`.
The code violates it for `upgrade` and `upgrade-skins`: `add_subparser` adds
the `--config` argument to the `create` and `reconfigure` subcommands only,
so `station upgrade --config=PATH` is an argparse usage error (even though
the module's own `station_upgrade_usage` string advertises the option), while
`create` and `reconfigure` accept it and record the path. -/
theorem upgrade_rejects_config_option :
    parseTokens Action.upgrade {}
        [("--config", some "/home/weewx/weewx.conf")] =
      Except.error "unrecognized arguments: --config" ∧
    parseTokens Action.upgradeSkins {}
        [("--config", some "/home/weewx/weewx.conf")] =
      Except.error "unrecognized arguments: --config" ∧
    parseTokens Action.create {}
        [("--config", some "/home/weewx/weewx.conf")] =
      Except.ok { config := some "/home/weewx/weewx.conf" } ∧
    parseTokens Action.reconfigure {}
        [("--config", some "/home/weewx/weewx.conf")] =
      Except.ok { config := some "/home/weewx/weewx.conf" } ∧
    runStationCommand Action.upgrade
        [("--config", some "/home/weewx/weewx.conf")] EngineOutcome.normal =
      InvocationResult.usageError "unrecognized arguments: --config" := by
  decide

/-- C2 counterexample: the claim states that every typed error of the spec's
taxonomy raised by the engine is caught by the handler and converted into a
terminating user-facing message.  But the handlers' `try/except` matches only
`weewx.ViolatedPrecondition`: an engine error of class `WriteError` (or
`UpgradeStepError`) escapes `create_station`/`reconfigure_station` uncaught
instead of being converted to a `sys.exit` message. -/
theorem non_precondition_error_propagates :
    runCreateStation (EngineOutcome.otherError "WriteError" "permission denied") =
      HandlerResult.raised "WriteError" "permission denied" ∧
    runReconfigureStation
        (EngineOutcome.otherError "UpgradeStepError" "step failed") =
      HandlerResult.raised "UpgradeStepError" "step failed" := by decide

/-- C2 amended: of the spec's error taxonomy, exactly the precondition error
(`weewx.ViolatedPrecondition`) is caught by `create_station` and
`reconfigure_station` and converted into a terminating user-facing message;
an engine error of any other class propagates out of the handler uncaught,
with its class and message intact — so no error is silently swallowed, and a
normal engine return is the only way the handler returns normally. -/
theorem only_violated_precondition_caught (o : EngineOutcome) :
    (∀ m, runCreateStation o = HandlerResult.exited 1 m ↔
      o = EngineOutcome.violatedPrecondition m) ∧
    (runCreateStation o = HandlerResult.returned ↔ o = EngineOutcome.normal) ∧
    (∀ n m, runCreateStation o = HandlerResult.raised n m ↔
      o = EngineOutcome.otherError n m) ∧
    (∀ m, runReconfigureStation o = HandlerResult.exited 1 m ↔
      o = EngineOutcome.violatedPrecondition m) ∧
    (runReconfigureStation o = HandlerResult.returned ↔
      o = EngineOutcome.normal) ∧
    (∀ n m, runReconfigureStation o = HandlerResult.raised n m ↔
      o = EngineOutcome.otherError n m) := by
  cases o <;> simp [runCreateStation, runReconfigureStation]

/-- C2 witness: the amended statement applied to a concrete precondition
error: the handler converts it to `sys.exit` with status 1 and the message. -/
theorem only_violated_precondition_caught_witness :
    runCreateStation (EngineOutcome.violatedPrecondition "register requires a station URL") =
      HandlerResult.exited 1 "register requires a station URL" :=
  ((only_violated_precondition_caught
      (EngineOutcome.violatedPrecondition "register requires a station URL")).1
    "register requires a station URL").mpr rfl

/-- C5: `create_station` and `reconfigure_station` call `sys.exit` iff the
engine raises `weewx.ViolatedPrecondition`; the exit status is non-zero (it
is 1) and the exception's message is the single output; when the engine call
returns normally the handlers return without exiting and emit no output of
their own. -/
theorem handlers_exit_iff_violated_precondition (o : EngineOutcome) :
    (∀ c m, runCreateStation o = HandlerResult.exited c m →
      c ≠ 0 ∧ handlerOutput (HandlerResult.exited c m) = [m] ∧
        o = EngineOutcome.violatedPrecondition m) ∧
    (∀ c m, runReconfigureStation o = HandlerResult.exited c m →
      c ≠ 0 ∧ handlerOutput (HandlerResult.exited c m) = [m] ∧
        o = EngineOutcome.violatedPrecondition m) ∧
    (∀ m, o = EngineOutcome.violatedPrecondition m →
      runCreateStation o = HandlerResult.exited 1 m ∧
      runReconfigureStation o = HandlerResult.exited 1 m) ∧
    (o = EngineOutcome.normal →
      runCreateStation o = HandlerResult.returned ∧
      runReconfigureStation o = HandlerResult.returned ∧
      handlerOutput (runCreateStation o) = [] ∧
      handlerOutput (runReconfigureStation o) = []) := by
  cases o <;> simp [runCreateStation, runReconfigureStation, handlerOutput]

/-- C5 witness: at the concrete outcomes `ViolatedPrecondition "oops"` and
`normal`, the handlers exit with status 1 printing exactly the message, and
return silently, respectively. -/
theorem handlers_exit_iff_violated_precondition_witness :
    (runCreateStation (EngineOutcome.violatedPrecondition "oops") =
        HandlerResult.exited 1 "oops" ∧
      runReconfigureStation (EngineOutcome.violatedPrecondition "oops") =
        HandlerResult.exited 1 "oops") ∧
    (runCreateStation EngineOutcome.normal = HandlerResult.returned ∧
      handlerOutput (runCreateStation EngineOutcome.normal) = []) :=
  ⟨(handlers_exit_iff_violated_precondition
        (EngineOutcome.violatedPrecondition "oops")).2.2.1 "oops" rfl,
    ⟨((handlers_exit_iff_violated_precondition EngineOutcome.normal).2.2.2 rfl).1,
      ((handlers_exit_iff_violated_precondition EngineOutcome.normal).2.2.2 rfl).2.2.1⟩⟩

/-- C6: for every StationSettings field among driver, location, altitude,
latitude, longitude, register, unit_system, skin_root, sqlite_root,
html_root and no_prompt whose option never appears on the command line, the
parsed attribute is `None` (no `add_argument` call passes a `default=`), and
the value the bound handler forwards to the engine under that keyword is
`None` — never a substituted default. -/
theorem unspecified_fields_forward_none (a : Action) (hid : HandlerId)
    (ha : boundHandler a = some hid)
    (toks : List (String × Option String)) (ns : Namespace) (d : Dest)
    (hd : d ∈ settingsDests)
    (h : parseTokens a {} toks = Except.ok ns)
    (hn : ∀ t ∈ toks, t.1 ≠ flagOf d) :
    getDest ns d = PyVal.pyNone ∧
    (engineCallOf hid ns).lookup (kwargName d) = some PyVal.pyNone := by
  have hpres := parseTokens_preserves toks {} ns h hn
  have hnone : getDest ns d = PyVal.pyNone := by
    rw [hpres]
    simp only [settingsDests, List.mem_cons, List.not_mem_nil, or_false] at hd
    rcases hd with rfl|rfl|rfl|rfl|rfl|rfl|rfl|rfl|rfl|rfl|rfl <;> rfl
  have hfwd : d ∈ forwardedDests := by
    simp only [settingsDests, List.mem_cons, List.not_mem_nil, or_false] at hd
    rcases hd with rfl|rfl|rfl|rfl|rfl|rfl|rfl|rfl|rfl|rfl|rfl <;> decide
  refine ⟨hnone, ?_⟩
  cases hid with
  | createStationH =>
    show (createStationCall ns).lookup (kwargName d) = some PyVal.pyNone
    rw [(call_lookup_eq hfwd ns).1, hnone]
  | reconfigureStationH =>
    show (reconfigureStationCall ns).lookup (kwargName d) = some PyVal.pyNone
    rw [(call_lookup_eq hfwd ns).2, hnone]

/-- C6 witness: a `create` invocation giving only `--location` leaves
`driver` at `None` in the namespace and forwards `driver=None` to the
engine. -/
theorem unspecified_fields_forward_none_witness :
    getDest { location := some "Home" } Dest.driver = PyVal.pyNone ∧
    (engineCallOf HandlerId.createStationH
        { location := some "Home" }).lookup "driver" = some PyVal.pyNone :=
  unspecified_fields_forward_none Action.create HandlerId.createStationH rfl
    [("--location", some "Home")] { location := some "Home" } Dest.driver
    (by decide) (by decide) (by decide)

/-- C7: under `create` or `reconfigure`, a `--units` value outside
`us`/`metricwx`/`metric` or a `--register` value outside `y`/`n` makes the
whole parse fail (argparse rejects it before any handler, hence before any
engine call, can run), while an accepted `--units` value is stored under the
namespace attribute `unit_system` (the explicit `dest` of `--units`). -/
theorem choices_rejected_at_parse_time (a : Action)
    (ha : a = Action.create ∨ a = Action.reconfigure)
    (u r : String) (hu : unitsChoices.contains u = false)
    (hr : registerChoices.contains r = false)
    (toksU toksR : List (String × Option String)) (ns0 : Namespace)
    (hmu : ("--units", some u) ∈ toksU)
    (hmr : ("--register", some r) ∈ toksR) :
    (∀ ns, parseTokens a ns0 toksU ≠ Except.ok ns) ∧
    (∀ ns, parseTokens a ns0 toksR ≠ Except.ok ns) ∧
    (∀ (ns : Namespace) (u2 : String), unitsChoices.contains u2 = true →
      applyToken a ns "--units" (some u2) =
        Except.ok { ns with unit_system := some u2 }) := by
  have hdu : destOf a "--units" = some Dest.unitSystem := by
    rcases ha with rfl | rfl <;> decide
  have hdr : destOf a "--register" = some Dest.register := by
    rcases ha with rfl | rfl <;> decide
  have hu' : u ∉ unitsChoices := by simpa using hu
  have hr' : r ∉ registerChoices := by simpa using hr
  refine ⟨?_, ?_, ?_⟩
  · intro ns
    refine parseTokens_bad ?_ toksU ns0 ns hmu
    intro ns1
    exact ⟨"argument --units: invalid choice: " ++ u, by
      simp [applyToken, hdu, checkChoices, choicesOf, hu']⟩
  · intro ns
    refine parseTokens_bad ?_ toksR ns0 ns hmr
    intro ns1
    exact ⟨"argument --register: invalid choice: " ++ r, by
      simp [applyToken, hdr, checkChoices, choicesOf, hr']⟩
  · intro ns u2 hu2
    have hu2' : u2 ∈ unitsChoices := by simpa using hu2
    simp [applyToken, hdu, checkChoices, choicesOf, hu2', setDest]

/-- C7 witness: `--units=imperial` and `--register=true` never parse to a
namespace under `create`, while `--units=metricwx` is accepted and stored
under `unit_system`. -/
theorem choices_rejected_at_parse_time_witness :
    parseTokens Action.create {} [("--units", some "imperial")] ≠
      Except.ok { unit_system := some "imperial" } ∧
    parseTokens Action.create {} [("--register", some "true")] ≠
      Except.ok { register := some "true" } ∧
    applyToken Action.create {} "--units" (some "metricwx") =
      Except.ok { unit_system := some "metricwx" } := by
  have h := choices_rejected_at_parse_time Action.create (Or.inl rfl)
    "imperial" "true" (by decide) (by decide)
    [("--units", some "imperial")] [("--register", some "true")] {}
    (by decide) (by decide)
  exact ⟨h.1 _, h.2.1 _, h.2.2 {} "metricwx" (by decide)⟩

/-- C8: because `--no-prompt` is declared with `type=bool` (an option taking
one string value, not a store-true flag), any non-empty supplied value —
`"False"`, `"0"`, `"no"` included — yields `namespace.no_prompt = True`;
only the empty string yields `False`; and a bare `--no-prompt` with no value
is a parse error. -/
theorem no_prompt_bool_semantics (a : Action)
    (ha : a = Action.create ∨ a = Action.reconfigure)
    (ns : Namespace) (s : String) :
    (s ≠ "" → applyToken a ns "--no-prompt" (some s) =
      Except.ok { ns with no_prompt := some true }) ∧
    (applyToken a ns "--no-prompt" (some "") =
      Except.ok { ns with no_prompt := some false }) ∧
    (∃ m, applyToken a ns "--no-prompt" none = Except.error m) := by
  have hd : destOf a "--no-prompt" = some Dest.noPrompt := by
    rcases ha with rfl | rfl <;> decide
  refine ⟨fun hs => ?_, ?_, ?_⟩
  · have he : s.isEmpty = false :=
      Bool.eq_false_iff.mpr fun he => hs ((String.isEmpty_iff s).mp he)
    have hb : pythonBool s = true := by unfold pythonBool; rw [he]; rfl
    simp [applyToken, hd, checkChoices, choicesOf, setDest, hb]
  · have hb : pythonBool "" = false := rfl
    simp [applyToken, hd, checkChoices, choicesOf, setDest, hb]
  · exact ⟨"argument --no-prompt: expected one argument", by
      simp [applyToken, hd]⟩

/-- C8 witness: supplying the literal string `False` turns prompting off the
wrong way round — `no_prompt` comes out `True` — while the empty string
gives `False`. -/
theorem no_prompt_bool_semantics_witness :
    applyToken Action.create {} "--no-prompt" (some "False") =
      Except.ok { no_prompt := some true } ∧
    applyToken Action.create {} "--no-prompt" (some "") =
      Except.ok { no_prompt := some false } :=
  ⟨(no_prompt_bool_semantics Action.create (Or.inl rfl) {} "False").1
      (by decide),
    (no_prompt_bool_semantics Action.create (Or.inl rfl) {} "False").2.1⟩

/-- C9 counterexample: the claim states that every string supplied to the
free-string options — `--station-url` among them — parses and reaches the
engine entry point verbatim.  The parse does succeed, but the supplied
station URL value appears nowhere among the values either handler passes to
the engine: `station_url` is dropped, so it does not reach the engine at
all. -/
theorem station_url_not_forwarded_verbatim :
    parseTokens Action.create {}
        [("--station-url", some "https://www.example.org/me")] =
      Except.ok { station_url := some "https://www.example.org/me" } ∧
    ((createStationCall
          { station_url := some "https://www.example.org/me" }).map
        Prod.snd).contains (PyVal.str "https://www.example.org/me") = false ∧
    ((reconfigureStationCall
          { station_url := some "https://www.example.org/me" }).map
        Prod.snd).contains (PyVal.str "https://www.example.org/me") = false := by
  decide

/-- C9 amended: the CLI layer performs no format or range validation on
`--driver`, `--location`, `--altitude`, `--latitude`, `--longitude`,
`--station-url` or the three root options: every supplied string parses
successfully and is stored raw in the namespace.  For all of them except
`--station-url` the string then reaches the engine entry point verbatim
under its keyword; `--station-url` is parsed into `namespace.station_url`
but never forwarded to the engine. -/
theorem free_args_reach_engine_verbatim (a : Action)
    (ha : a = Action.create ∨ a = Action.reconfigure)
    (ns : Namespace) (s : String) (d : Dest) (hd : d ∈ verbatimDests) :
    applyToken a ns (flagOf d) (some s) = Except.ok (setDest ns d s) ∧
    (engineCallOf HandlerId.createStationH (setDest ns d s)).lookup
      (kwargName d) = some (PyVal.str s) ∧
    (engineCallOf HandlerId.reconfigureStationH (setDest ns d s)).lookup
      (kwargName d) = some (PyVal.str s) ∧
    applyToken a ns "--station-url" (some s) =
      Except.ok { ns with station_url := some s } ∧
    ((createStationCall { ns with station_url := some s }).map
      Prod.fst).contains "station_url" = false := by
  have hdd : destOf a (flagOf d) = some d := by
    rcases ha with rfl | rfl <;>
      (simp only [verbatimDests, List.mem_cons, List.not_mem_nil,
        or_false] at hd;
       rcases hd with rfl|rfl|rfl|rfl|rfl|rfl|rfl|rfl <;> decide)
  have hc : checkChoices d s = true := by
    simp only [verbatimDests, List.mem_cons, List.not_mem_nil, or_false] at hd
    rcases hd with rfl|rfl|rfl|rfl|rfl|rfl|rfl|rfl <;> rfl
  have hget : getDest (setDest ns d s) d = PyVal.str s := by
    simp only [verbatimDests, List.mem_cons, List.not_mem_nil, or_false] at hd
    rcases hd with rfl|rfl|rfl|rfl|rfl|rfl|rfl|rfl <;> rfl
  have hfwd : d ∈ forwardedDests := by
    simp only [verbatimDests, List.mem_cons, List.not_mem_nil, or_false] at hd
    rcases hd with rfl|rfl|rfl|rfl|rfl|rfl|rfl|rfl <;> decide
  have hsu : destOf a "--station-url" = some Dest.stationUrl := by
    rcases ha with rfl | rfl <;> decide
  refine ⟨?_, ?_, ?_, ?_, rfl⟩
  · simp [applyToken, hdd, hc]
  · show (createStationCall (setDest ns d s)).lookup (kwargName d) =
      some (PyVal.str s)
    rw [(call_lookup_eq hfwd (setDest ns d s)).1, hget]
  · show (reconfigureStationCall (setDest ns d s)).lookup (kwargName d) =
      some (PyVal.str s)
    rw [(call_lookup_eq hfwd (setDest ns d s)).2, hget]
  · simp [applyToken, hsu, checkChoices, choicesOf, setDest]

/-- C9 witness: the out-of-range latitude string `999.9` parses without
complaint and is forwarded verbatim to the engine under `latitude`. -/
theorem free_args_reach_engine_verbatim_witness :
    applyToken Action.create {} "--latitude" (some "999.9") =
      Except.ok { latitude := some "999.9" } ∧
    (engineCallOf HandlerId.createStationH
        { latitude := some "999.9" }).lookup "latitude" =
      some (PyVal.str "999.9") := by
  have h := free_args_reach_engine_verbatim Action.create (Or.inl rfl) {}
    "999.9" Dest.latitude (by decide)
  exact ⟨h.1, h.2.1⟩

/-- C10: `create_station` and `reconfigure_station` are deterministic
functions of the parsed namespace: two namespaces agreeing on every
forwarded field value produce identical keyword-argument lists (same
keywords, same values, same order) for the engine entry points.  Agreement
on `station_url` is not even needed, since neither handler forwards it. -/
theorem handlers_deterministic (ns1 ns2 : Namespace)
    (h1 : ns1.config = ns2.config) (h2 : ns1.driver = ns2.driver)
    (h3 : ns1.location = ns2.location) (h4 : ns1.altitude = ns2.altitude)
    (h5 : ns1.latitude = ns2.latitude) (h6 : ns1.longitude = ns2.longitude)
    (h7 : ns1.register = ns2.register)
    (h8 : ns1.unit_system = ns2.unit_system)
    (h9 : ns1.skin_root = ns2.skin_root)
    (h10 : ns1.sqlite_root = ns2.sqlite_root)
    (h11 : ns1.html_root = ns2.html_root)
    (h12 : ns1.no_prompt = ns2.no_prompt) :
    createStationCall ns1 = createStationCall ns2 ∧
    reconfigureStationCall ns1 = reconfigureStationCall ns2 := by
  simp [createStationCall, reconfigureStationCall, h1, h2, h3, h4, h5, h6,
    h7, h8, h9, h10, h11, h12]

/-- C10 witness: two namespaces equal on every forwarded field (differing
only in `station_url`) yield identical engine calls. -/
theorem handlers_deterministic_witness :
    createStationCall { station_url := some "https://a.example" } =
      createStationCall { station_url := some "https://b.example" } ∧
    reconfigureStationCall { station_url := some "https://a.example" } =
      reconfigureStationCall { station_url := some "https://b.example" } :=
  handlers_deterministic _ _ rfl rfl rfl rfl rfl rfl rfl rfl rfl rfl rfl rfl

end WeectlStation
